import Mathlib

/-!
Shallow embedding of the index-lifecycle logic of the llvm-source-agent
repository: src/query.py (class DynamicIndexManager) and
src/watch_and_index.py (class CodeFileHandler, initial_index_build,
start_file_watcher).

External collaborators (llama_index loading and persisting, the Ollama
backends, watchdog event delivery) are modelled as environment
parameters; the definitions below mirror the control flow of the
repository code line by line.
-/

/-- The artifact set at the index storage directory: whether the
directory exists, and the files found under it in walk order, each with
its modification time, or none when the stat call raises OSError.  The
artifact set is modelled as a flat file list, so the directory listing
consulted by initial_index_build is this same list.  Times are naturals
(real modification times are nonnegative). -/
structure Storage where
  exists_dir : Bool
  files : List (String × Option Nat)
deriving DecidableEq

/-- src/query.py lines 81 to 95, DynamicIndexManager.
After a dot: _get_index_modification_time.  Return 0 when the storage
path does not exist; otherwise fold over every file found by the walk,
taking the running maximum of the modification times, skipping any file
whose stat raises OSError (the continue branch). -/
def getIndexModificationTime (s : Storage) : Nat :=
  if !s.exists_dir then 0
  else
    s.files.foldl (fun latest f =>
      match f.2 with
      | some t => max latest t
      | none => latest) 0

/-- Abstract identity of an in-memory vector index value returned by
load_index_from_storage. -/
structure VIndex where
  id : Nat
deriving DecidableEq

/-- Abstract query engine; index.as_query_engine determines it from the
loaded index (engine configuration such as top-K lives outside the
model). -/
structure QueryEngine where
  index : VIndex
deriving DecidableEq

def VIndex.asQueryEngine (i : VIndex) : QueryEngine := ⟨i⟩

/-- Outcome of the fallible external calls inside the try block of
_load_index (StorageContext.from_defaults, load_index_from_storage,
as_query_engine): either a loaded index, or a raised exception carrying
a message. -/
inductive LoadResult where
  | success (idx : VIndex)
  | failure (msg : String)
deriving DecidableEq

def LoadResult.isFailure : LoadResult → Bool
  | .failure _ => true
  | .success _ => false

/-- Mutable state of a DynamicIndexManager instance: self.index,
self.query_engine, self.last_modified. -/
structure ManagerState where
  index : Option VIndex
  query_engine : Option QueryEngine
  last_modified : Nat
deriving DecidableEq

/-- src/query.py lines 97 to 121, DynamicIndexManager._load_index.
When the storage path exists, the external load either succeeds (index
and engine are stored and last_modified becomes the staleness timestamp
just computed) or raises, in which case the except handler sets index
and query_engine to None, leaving last_modified untouched.  When the
path does not exist, the else branch likewise sets both to None. -/
def loadIndex (st : ManagerState) (s : Storage) (r : LoadResult) : ManagerState :=
  if s.exists_dir then
    match r with
    | .success idx =>
        { index := some idx
          query_engine := some idx.asQueryEngine
          last_modified := getIndexModificationTime s }
    | .failure _ => { st with index := none, query_engine := none }
  else
    { st with index := none, query_engine := none }

/-- src/query.py lines 123 to 128, DynamicIndexManager.
After a dot: _check_and_reload_if_needed. -/
def checkAndReload (st : ManagerState) (s : Storage) (r : LoadResult) : ManagerState :=
  if getIndexModificationTime s > st.last_modified then loadIndex st s r else st

/-- The sentinel answer of src/query.py line 135. -/
def indexUnavailableMsg : String :=
  "❌ Error: Index not available. Please wait for initial indexing to complete."

/-- The textual error payload of src/query.py line 155. -/
def queryErrorMsg (m : String) : String := "❌ Error querying index: " ++ m

/-- src/query.py lines 130 to 155, DynamicIndexManager.query.  The
engine call self.query_engine.query together with the answer formatting
of lines 140 to 151 is the external behaviour beh: ok carries the final
answer text (source list already appended), error carries the message of
a raised exception, which the except handler of line 154 turns into the
textual error payload. -/
def managerQuery (st : ManagerState) (s : Storage) (r : LoadResult)
    (beh : QueryEngine → String → Except String String) (q : String) :
    ManagerState × String :=
  let st1 := checkAndReload st s r
  match st1.query_engine with
  | none => (st1, indexUnavailableMsg)
  | some e =>
      match beh e q with
      | Except.ok a => (st1, a)
      | Except.error m => (st1, queryErrorMsg m)

/-- src/query.py lines 74 to 79: DynamicIndexManager.__init__ sets the
fields to None, None, 0 and immediately calls _load_index. -/
def initManager (s : Storage) (r : LoadResult) : ManagerState :=
  loadIndex { index := none, query_engine := none, last_modified := 0 } s r

/-- One query call against the manager: the storage state observed
during that call, the outcome a load attempt would have, the engine
behaviour, and the query text. -/
structure QueryStep where
  storage : Storage
  load : LoadResult
  beh : QueryEngine → String → Except String String
  text : String

/-- A sequence of query calls, threading the manager state and
collecting every answer. -/
def runQueries (st : ManagerState) : List QueryStep → ManagerState × List String
  | [] => (st, [])
  | step :: rest =>
      let p := managerQuery st step.storage step.load step.beh step.text
      let res := runQueries p.1 rest
      (res.1, p.2 :: res.2)

/-- Outcome of one external pipeline stage: a value, or a raised
exception with its message. -/
inductive StageOutcome (α : Type) where
  | ok (val : α)
  | exn (msg : String)
deriving DecidableEq

/-- Abstract documents returned by SimpleDirectoryReader.load_data. -/
structure Documents where
  chunks : List String
deriving DecidableEq

/-- Abstract in-memory index built by VectorStoreIndex.from_documents. -/
structure BuiltIndex where
  id : Nat
deriving DecidableEq

/-- Behaviour of the three external stages invoked by rebuild_index and
by initial_index_build: reading the source tree, building the index with
its embeddings, and persisting into the target directory.  persistDir
receives the storage contents currently at the target path and returns
the stage outcome together with the contents afterwards; the repository
code passes the live storage location directly to persist, so whatever
effect a failing persist has lands on that location. -/
structure PipelineEnv where
  readDocs : StageOutcome Documents
  buildIndex : Documents → StageOutcome BuiltIndex
  persistDir : BuiltIndex → Storage → StageOutcome Unit × Storage

/-- src/watch_and_index.py lines 57 to 64 (and identically lines 98 to
100): reader, then from_documents, then persist, each raised exception
aborting the remaining stages. -/
def runPipeline (env : PipelineEnv) (s : Storage) : StageOutcome Unit × Storage :=
  match env.readDocs with
  | .exn m => (.exn m, s)
  | .ok docs =>
      match env.buildIndex docs with
      | .exn m => (.exn m, s)
      | .ok idx => env.persistDir idx s

/-- Mutable state of a CodeFileHandler instance. -/
structure HandlerState where
  source_path : String
  index_path : String
  debounce_time : Int
  last_rebuild_time : Int
deriving DecidableEq

/-- src/watch_and_index.py lines 33 to 37: CodeFileHandler.__init__ with
the default debounce_time of 2. -/
def mkCodeFileHandler (src idx : String) : HandlerState :=
  { source_path := src, index_path := idx, debounce_time := 2, last_rebuild_time := 0 }

/-- src/watch_and_index.py lines 39 to 45, CodeFileHandler.
After a dot: should_process_file.  The guard is os.path.isfile evaluated
against the current filesystem, where fs lists the paths that exist as
regular files at that moment; all file types qualify, there is no
extension filtering. -/
def shouldProcessFile (fs : List String) (p : String) : Bool := fs.contains p

/-- src/watch_and_index.py lines 47 to 70, CodeFileHandler.rebuild_index:
capture the current time, return early when within the debounce window,
otherwise run the pipeline inside try/except; on success
last_rebuild_time becomes the captured start time, on a caught exception
it is left unchanged (line 66 sits inside the try block).  The Bool
records whether the pipeline ran. -/
def rebuildIndex (h : HandlerState) (now : Int) (env : PipelineEnv) (s : Storage) :
    HandlerState × Storage × Bool :=
  if now - h.last_rebuild_time < h.debounce_time then (h, s, false)
  else
    match runPipeline env s with
    | (.ok _, s1) => ({ h with last_rebuild_time := now }, s1, true)
    | (.exn _, s1) => (h, s1, true)

/-- Kinds of watchdog filesystem events delivered to the handler. -/
inductive EventKind where
  | created
  | modified
  | deleted
  | moved (dest_path : String)
deriving DecidableEq

/-- A watchdog event: its kind, the is_directory flag and the source
path. -/
structure FsEvent where
  kind : EventKind
  is_directory : Bool
  src_path : String
deriving DecidableEq

/-- src/watch_and_index.py lines 72 to 75, CodeFileHandler.on_modified. -/
def onModified (h : HandlerState) (fs : List String) (e : FsEvent) (now : Int)
    (env : PipelineEnv) (s : Storage) : HandlerState × Storage × Bool :=
  if !e.is_directory && shouldProcessFile fs e.src_path then rebuildIndex h now env s
  else (h, s, false)

/-- src/watch_and_index.py lines 77 to 80, CodeFileHandler.on_created. -/
def onCreated (h : HandlerState) (fs : List String) (e : FsEvent) (now : Int)
    (env : PipelineEnv) (s : Storage) : HandlerState × Storage × Bool :=
  if !e.is_directory && shouldProcessFile fs e.src_path then rebuildIndex h now env s
  else (h, s, false)

/-- src/watch_and_index.py lines 82 to 85, CodeFileHandler.on_deleted:
the guard calls should_process_file on the deleted path against the
filesystem as it stands after the deletion. -/
def onDeleted (h : HandlerState) (fs : List String) (e : FsEvent) (now : Int)
    (env : PipelineEnv) (s : Storage) : HandlerState × Storage × Bool :=
  if !e.is_directory && shouldProcessFile fs e.src_path then rebuildIndex h now env s
  else (h, s, false)

/-- src/watch_and_index.py lines 87 to 92, CodeFileHandler.on_moved. -/
def onMoved (h : HandlerState) (fs : List String) (e : FsEvent) (dest : String) (now : Int)
    (env : PipelineEnv) (s : Storage) : HandlerState × Storage × Bool :=
  if !e.is_directory && (shouldProcessFile fs e.src_path || shouldProcessFile fs dest) then
    rebuildIndex h now env s
  else (h, s, false)

/-- Watchdog dispatch of one event to the matching handler method. -/
def dispatchEvent (h : HandlerState) (fs : List String) (e : FsEvent) (now : Int)
    (env : PipelineEnv) (s : Storage) : HandlerState × Storage × Bool :=
  match e.kind with
  | .created => onCreated h fs e now env s
  | .modified => onModified h fs e now env s
  | .deleted => onDeleted h fs e now env s
  | .moved dest => onMoved h fs e dest now env s

/-- A sequence of timestamped events delivered to the handler, threading
handler state and storage and counting how many times the rebuild
pipeline actually ran. -/
def processEvents (h : HandlerState) (fs : List String) (env : PipelineEnv) (s : Storage) :
    List (Int × FsEvent) → HandlerState × Storage × Nat
  | [] => (h, s, 0)
  | (t, e) :: rest =>
      let step := dispatchEvent h fs e t env s
      let res := processEvents step.1 fs env step.2.1 rest
      (res.1, res.2.1, (if step.2.2 then 1 else 0) + res.2.2)

/-- src/watch_and_index.py lines 94 to 103, initial_index_build: when
the storage path does not exist or its listing is empty, run the
pipeline with no exception handler around it, so a stage failure
propagates to the caller.  The Bool records whether the pipeline ran. -/
def initialIndexBuild (env : PipelineEnv) (s : Storage) :
    Except String Storage × Bool :=
  if !s.exists_dir || s.files.isEmpty then
    match runPipeline env s with
    | (.ok _, s1) => (Except.ok s1, true)
    | (.exn m, _) => (Except.error m, true)
  else (Except.ok s, false)

/-- Observable milestones of the watcher entry point. -/
inductive WatcherStep where
  | pipelineRun
  | observerStarted
deriving DecidableEq

/-- src/watch_and_index.py lines 105 to 119, start_file_watcher up to
observer.start(): initial_index_build runs first, outside any handler,
so an exception from it propagates before the observer is ever
scheduled or started. -/
def startFileWatcher (env : PipelineEnv) (s : Storage) :
    List WatcherStep × Except String Storage :=
  match initialIndexBuild env s with
  | (Except.ok s1, ran) =>
      ((if ran then [WatcherStep.pipelineRun] else []) ++ [WatcherStep.observerStarted],
        Except.ok s1)
  | (Except.error m, ran) =>
      ((if ran then [WatcherStep.pipelineRun] else []), Except.error m)

/-- Modelled from the spec words for PersistedIndexState (the refinement
target for claim C9, stated independently of the code): the staleness
timestamp is the maximum modification time across all files of the
artifact set, 0 when the set is absent or empty, with files whose stat
fails skipped. -/
def stalenessTimestamp (s : Storage) : Nat :=
  if !s.exists_dir then 0
  else ((s.files.filterMap Prod.snd).max?).getD 0

/-! ## Helper lemmas -/

/-- When the storage path does not exist, the staleness computation of
the code returns 0. -/
lemma getIndexModificationTime_absent (s : Storage) (h : s.exists_dir = false) :
    getIndexModificationTime s = 0 := by
  simp [getIndexModificationTime, h]

/-- The fold of _get_index_modification_time over (path, stat outcome)
pairs equals the fold of max over the successfully statted times. -/
lemma foldl_step_eq_filterMap (l : List (String × Option Nat)) (a : Nat) :
    l.foldl (fun latest f =>
      match f.2 with
      | some t => max latest t
      | none => latest) a
      = (l.filterMap Prod.snd).foldl max a := by
  induction l generalizing a with
  | nil => rfl
  | cons p rest ih =>
      obtain ⟨name, mt⟩ := p
      cases mt with
      | none => simpa using ih a
      | some t => simpa using ih (max a t)

/-- Folding max over a list of naturals computes the maximum of the
accumulator and the optional list maximum. -/
lemma foldl_max_eq_maxQuery (l : List Nat) (a : Nat) :
    l.foldl max a = max a (l.max?.getD 0) := by
  induction l generalizing a with
  | nil => simp [List.max?]
  | cons t rest ih =>
      have h1 : (t :: rest).foldl max a = rest.foldl max (max a t) := rfl
      have h2 : (t :: rest).max? = some (rest.foldl max t) := rfl
      rw [h1, ih (max a t), h2]
      have h3 := ih t
      simp only [Option.getD_some]
      rw [h3]
      exact max_assoc a t (rest.max?.getD 0)

/-- A reload attempt that fails (the external load raises) clears the
index and query engine fields and touches nothing else; this holds in
the storage-exists branch (the except handler) and in the
storage-missing branch (the else arm) alike. -/
lemma loadIndex_failure (st : ManagerState) (s : Storage) (m : String) :
    loadIndex st s (LoadResult.failure m) =
      { st with index := none, query_engine := none } := by
  unfold loadIndex
  by_cases h : s.exists_dir = true <;> simp [h]

/-- When the storage path does not exist, _load_index takes the else arm
and clears the index and query engine regardless of what a load would
have returned. -/
lemma loadIndex_absent (st : ManagerState) (s : Storage) (r : LoadResult)
    (h : s.exists_dir = false) :
    loadIndex st s r = { st with index := none, query_engine := none } := by
  unfold loadIndex
  simp [h]

/-- Clearing already-cleared fields is the identity on the manager
state. -/
lemma clear_eq_self (st : ManagerState) (hidx : st.index = none)
    (hqe : st.query_engine = none) :
    ({ st with index := none, query_engine := none } : ManagerState) = st := by
  cases st with
  | mk i q l => simp_all

/-- A single query call on a manager whose engine is absent, observing a
storage that is not strictly newer than last_modified or whose load
would raise, answers with the unavailable sentinel and leaves the state
unchanged. -/
lemma managerQuery_unavailable (st : ManagerState) (s : Storage) (r : LoadResult)
    (beh : QueryEngine → String → Except String String) (q : String)
    (hidx : st.index = none) (hqe : st.query_engine = none)
    (hb : getIndexModificationTime s ≤ st.last_modified ∨ r.isFailure = true) :
    managerQuery st s r beh q = (st, indexUnavailableMsg) := by
  have hre : checkAndReload st s r = st := by
    unfold checkAndReload
    by_cases hgt : getIndexModificationTime s > st.last_modified
    · rcases hb with hle | hf
      · omega
      · cases r with
        | success idx => simp [LoadResult.isFailure] at hf
        | failure m =>
            rw [if_pos hgt, loadIndex_failure, clear_eq_self st hidx hqe]
    · simp [hgt]
  simp only [managerQuery, hre, hqe]

/-- Iterated form of the previous lemma: as long as every query call
observes a storage no newer than last_modified or a load outcome that
raises, the state never changes and every answer is the unavailable
sentinel. -/
lemma runQueries_unavailable (st : ManagerState) (steps : List QueryStep)
    (hidx : st.index = none) (hqe : st.query_engine = none)
    (hb : ∀ step ∈ steps,
      getIndexModificationTime step.storage ≤ st.last_modified ∨
        step.load.isFailure = true) :
    runQueries st steps = (st, steps.map fun _ => indexUnavailableMsg) := by
  induction steps with
  | nil => rfl
  | cons step rest ih =>
      have h1 : managerQuery st step.storage step.load step.beh step.text
          = (st, indexUnavailableMsg) :=
        managerQuery_unavailable st step.storage step.load step.beh step.text
          hidx hqe (hb step (List.mem_cons_self step rest))
      have h2 := ih (fun x hx => hb x (List.mem_cons_of_mem step hx))
      simp [runQueries, h1, h2]

/-- A call into rebuild_index that arrives within the debounce window
returns at once: no pipeline run, nothing changed. -/
lemma rebuild_dropped (h : HandlerState) (now : Int) (env : PipelineEnv) (s : Storage)
    (hlt : now - h.last_rebuild_time < h.debounce_time) :
    rebuildIndex h now env s = (h, s, false) := by
  unfold rebuildIndex
  simp [hlt]

/-- An event whose guard qualifies (not a directory, path currently an
existing regular file) is dispatched straight into rebuild_index,
whatever its kind. -/
lemma dispatch_qualifying (h : HandlerState) (fs : List String) (e : FsEvent) (now : Int)
    (env : PipelineEnv) (s : Storage)
    (hd : e.is_directory = false) (hp : shouldProcessFile fs e.src_path = true) :
    dispatchEvent h fs e now env s = rebuildIndex h now env s := by
  unfold dispatchEvent onCreated onModified onDeleted onMoved
  cases e.kind <;> simp [hd, hp]

/-- Any event delivered within the debounce window leaves handler state
and storage unchanged and runs no pipeline. -/
lemma dispatch_within_window (h : HandlerState) (fs : List String) (e : FsEvent)
    (now : Int) (env : PipelineEnv) (s : Storage)
    (hlt : now - h.last_rebuild_time < h.debounce_time) :
    dispatchEvent h fs e now env s = (h, s, false) := by
  have hr := rebuild_dropped h now env s hlt
  unfold dispatchEvent onCreated onModified onDeleted onMoved
  cases e.kind <;> dsimp only <;> split <;> simp [hr]

/-- A whole burst of events, each delivered within the debounce window,
changes nothing and runs zero pipelines. -/
lemma processEvents_dropped (fs : List String) (env : PipelineEnv) (h : HandlerState)
    (s : Storage) (steps : List (Int × FsEvent))
    (hall : ∀ te ∈ steps, te.1 - h.last_rebuild_time < h.debounce_time) :
    processEvents h fs env s steps = (h, s, 0) := by
  induction steps with
  | nil => rfl
  | cons te rest ih =>
      obtain ⟨t, e⟩ := te
      have h1 : dispatchEvent h fs e t env s = (h, s, false) :=
        dispatch_within_window h fs e t env s (hall (t, e) (List.mem_cons_self _ _))
      have h2 := ih (fun x hx => hall x (List.mem_cons_of_mem _ hx))
      simp [processEvents, h1, h2]

/-! ## Concrete fixtures used by counterexamples and witnesses -/

/-- A manager state holding a previously loaded index. -/
def stPrior : ManagerState := ⟨some ⟨1⟩, some ⟨⟨1⟩⟩, 5⟩

/-- A persisted artifact set strictly newer than stPrior. -/
def sNewer : Storage := ⟨true, [("docstore.json", some 7)]⟩

/-- A persisted artifact set not newer than stPrior. -/
def sOlder : Storage := ⟨true, [("docstore.json", some 3)]⟩

/-- A missing storage directory. -/
def sAbsent : Storage := ⟨false, []⟩

/-- An engine behaviour that answers normally. -/
def behOk : QueryEngine → String → Except String String :=
  fun _ _ => Except.ok "answer from loaded index"

/-- An engine behaviour that raises. -/
def behRaise : QueryEngine → String → Except String String :=
  fun _ _ => Except.error "ollama timeout"

def docsFx : Documents := ⟨["def foo(): pass"]⟩

/-- A pipeline whose three stages all succeed. -/
def envSucc : PipelineEnv :=
  ⟨StageOutcome.ok docsFx, fun _ => StageOutcome.ok ⟨1⟩, fun _ s => (StageOutcome.ok (), s)⟩

/-- A pipeline whose read stage raises. -/
def envReadFail : PipelineEnv :=
  ⟨StageOutcome.exn "embedding backend unreachable",
   fun _ => StageOutcome.ok ⟨1⟩, fun _ s => (StageOutcome.ok (), s)⟩

/-- A pipeline whose persist stage raises after writing one artifact
file into the live target directory. -/
def envPersistFail : PipelineEnv :=
  ⟨StageOutcome.ok docsFx, fun _ => StageOutcome.ok ⟨1⟩,
   fun _ s => (StageOutcome.exn "disk full",
     ⟨true, s.files ++ [("vector_store.json", some 9)]⟩)⟩

/-- A fresh handler with the default debounce window of 2. -/
def hFx : HandlerState := mkCodeFileHandler "/app/source" "/app/index"

/-- The watched tree while a.py exists. -/
def fsFx : List String := ["/app/source/a.py"]

/-- The watched tree after a.py has been deleted. -/
def fsAfterDelete : List String := []

def eModFx : FsEvent := ⟨EventKind.modified, false, "/app/source/a.py"⟩

def eDelFx : FsEvent := ⟨EventKind.deleted, false, "/app/source/a.py"⟩

/-! ## Claim C1 -/

/-- Claim C1, counterexample: with a previously loaded index in memory
(stPrior) and a strictly newer persisted staleness timestamp, a reload
attempt that raises does not leave the current index and query engine at
their prior values — both become absent — and the query issued during
that call returns the unavailable sentinel instead of answering from the
previously loaded index. -/
theorem reload_failure_drops_prior_index_cex :
    stPrior.query_engine = some ⟨⟨1⟩⟩ ∧
    getIndexModificationTime sNewer > stPrior.last_modified ∧
    (managerQuery stPrior sNewer (LoadResult.failure "corrupt docstore") behOk
      "what does foo do").1.query_engine = none ∧
    (managerQuery stPrior sNewer (LoadResult.failure "corrupt docstore") behOk
      "what does foo do").2 = indexUnavailableMsg := by
  refine ⟨rfl, by decide, rfl, rfl⟩

/-- Claim C1 (amended): when a reload attempt fails because the external
load raises, the manager clears the current index and query engine to
absent while last_modified keeps its prior value; the failure is
contained (the call returns normally, only logged) and the query issued
during that call returns the Index-not-available sentinel rather than
answering from the previously loaded index. -/
theorem reload_failure_clears_and_sentinels
    (st : ManagerState) (s : Storage) (m : String)
    (beh : QueryEngine → String → Except String String) (q : String)
    (hgt : getIndexModificationTime s > st.last_modified) :
    managerQuery st s (LoadResult.failure m) beh q =
      ({ st with index := none, query_engine := none }, indexUnavailableMsg) := by
  have hre : checkAndReload st s (LoadResult.failure m)
      = { st with index := none, query_engine := none } := by
    unfold checkAndReload
    rw [if_pos hgt, loadIndex_failure]
  simp only [managerQuery, hre]

/-- Witness for claim C1 at a concrete input. -/
theorem reload_failure_clears_and_sentinels_witness :
    managerQuery stPrior sNewer (LoadResult.failure "corrupt docstore") behOk "q" =
      ({ stPrior with index := none, query_engine := none }, indexUnavailableMsg) :=
  reload_failure_clears_and_sentinels stPrior sNewer "corrupt docstore" behOk "q" (by decide)

/-! ## Claim C5 -/

/-- Claim C5 (confirmed): after a reload attempt fails with an exception
(storage present), the query engine becomes absent while last_modified
keeps its prior value; every subsequent query whose observed staleness
timestamp does not strictly exceed that retained value answers with the
Index-not-available sentinel and leaves the state untouched — whatever
outcome a load would have had, none is attempted — so the manager stays
unavailable until a strictly newer artifact set is persisted. -/
theorem failed_reload_unavailable_until_newer
    (st : ManagerState) (s : Storage) (m : String) (steps : List QueryStep)
    (_hex : s.exists_dir = true)
    (hsteps : ∀ step ∈ steps, getIndexModificationTime step.storage ≤ st.last_modified) :
    (loadIndex st s (LoadResult.failure m)).query_engine = none ∧
    (loadIndex st s (LoadResult.failure m)).last_modified = st.last_modified ∧
    runQueries (loadIndex st s (LoadResult.failure m)) steps =
      (loadIndex st s (LoadResult.failure m), steps.map fun _ => indexUnavailableMsg) := by
  rw [loadIndex_failure]
  exact ⟨rfl, rfl,
    runQueries_unavailable _ steps rfl rfl (fun step hstep => Or.inl (hsteps step hstep))⟩

/-- Two later queries, one with a would-be successful load against a
stale artifact set, one with a raising engine behaviour. -/
def stepsOld : List QueryStep :=
  [⟨sOlder, LoadResult.success ⟨9⟩, behOk, "q1"⟩,
   ⟨sOlder, LoadResult.failure "boom", behRaise, "q2"⟩]

/-- Witness for claim C5 at a concrete input. -/
theorem failed_reload_unavailable_until_newer_witness :
    (loadIndex stPrior sNewer (LoadResult.failure "corrupt docstore")).query_engine = none ∧
    (loadIndex stPrior sNewer (LoadResult.failure "corrupt docstore")).last_modified
      = stPrior.last_modified ∧
    runQueries (loadIndex stPrior sNewer (LoadResult.failure "corrupt docstore")) stepsOld =
      (loadIndex stPrior sNewer (LoadResult.failure "corrupt docstore"),
        stepsOld.map fun _ => indexUnavailableMsg) :=
  failed_reload_unavailable_until_newer stPrior sNewer "corrupt docstore" stepsOld rfl
    (by decide)

/-! ## Claim C8 -/

/-- Claim C8 (confirmed): with storage_location missing at construction
the manager comes up with no index, no engine and last_modified 0, and
every query issued while each call observes a storage whose staleness
timestamp does not exceed 0 (missing or empty) or a load outcome that
raises answers with the Index-not-available sentinel — a returned value,
not a raised error — until a first successful load would occur. -/
theorem query_unavailable_until_first_load
    (s0 : Storage) (r0 : LoadResult) (steps : List QueryStep)
    (h0 : s0.exists_dir = false)
    (hsteps : ∀ step ∈ steps,
      getIndexModificationTime step.storage ≤ 0 ∨ step.load.isFailure = true) :
    initManager s0 r0 = ⟨none, none, 0⟩ ∧
    runQueries (initManager s0 r0) steps =
      (⟨none, none, 0⟩, steps.map fun _ => indexUnavailableMsg) := by
  have h1 : initManager s0 r0 = ⟨none, none, 0⟩ := by
    unfold initManager
    rw [loadIndex_absent _ _ _ h0]
  refine ⟨h1, ?_⟩
  rw [h1]
  exact runQueries_unavailable _ steps rfl rfl hsteps

/-- Two query calls: one against missing storage, one against a newer
storage whose load raises. -/
def stepsBlocked : List QueryStep :=
  [⟨sAbsent, LoadResult.success ⟨9⟩, behOk, "q1"⟩,
   ⟨sNewer, LoadResult.failure "no docstore", behOk, "q2"⟩]

/-- Witness for claim C8 at a concrete input. -/
theorem query_unavailable_until_first_load_witness :
    initManager sAbsent (LoadResult.success ⟨3⟩) = ⟨none, none, 0⟩ ∧
    runQueries (initManager sAbsent (LoadResult.success ⟨3⟩)) stepsBlocked =
      (⟨none, none, 0⟩, stepsBlocked.map fun _ => indexUnavailableMsg) :=
  query_unavailable_until_first_load sAbsent (LoadResult.success ⟨3⟩) stepsBlocked rfl
    (by decide)

/-! ## Claim C9 -/

/-- Claim C9 (confirmed): the staleness timestamp the code computes on
every query equals the spec staleness timestamp (maximum modification
time across the artifact files, 0 when the set is absent or empty, files
with stat errors skipped), and a reload is attempted exactly when that
timestamp strictly exceeds last_modified: strictly newer reduces the
check to _load_index, otherwise the state is returned untouched. -/
theorem staleness_and_reload_condition :
    (∀ s : Storage, getIndexModificationTime s = stalenessTimestamp s) ∧
    (∀ (st : ManagerState) (s : Storage) (r : LoadResult),
      getIndexModificationTime s > st.last_modified →
      checkAndReload st s r = loadIndex st s r) ∧
    (∀ (st : ManagerState) (s : Storage) (r : LoadResult),
      getIndexModificationTime s ≤ st.last_modified →
      checkAndReload st s r = st) := by
  refine ⟨?_, ?_, ?_⟩
  · intro s
    unfold getIndexModificationTime stalenessTimestamp
    cases h : s.exists_dir with
    | false => simp [h]
    | true => simp [h, foldl_step_eq_filterMap, foldl_max_eq_maxQuery]
  · intro st s r hgt
    unfold checkAndReload
    rw [if_pos hgt]
  · intro st s r hle
    unfold checkAndReload
    rw [if_neg (by omega)]

/-- Witness for claim C9 at concrete inputs. -/
theorem staleness_and_reload_condition_witness :
    getIndexModificationTime sNewer = stalenessTimestamp sNewer ∧
    checkAndReload stPrior sNewer (LoadResult.failure "x")
      = loadIndex stPrior sNewer (LoadResult.failure "x") ∧
    checkAndReload stPrior sOlder (LoadResult.failure "x") = stPrior :=
  ⟨staleness_and_reload_condition.1 sNewer,
   staleness_and_reload_condition.2.1 stPrior sNewer _ (by decide),
   staleness_and_reload_condition.2.2 stPrior sOlder _ (by decide)⟩

/-! ## More watcher-side helper lemmas and fixtures -/

/-- A pipeline whose embed/build stage raises. -/
def envBuildFail : PipelineEnv :=
  ⟨StageOutcome.ok docsFx, fun _ => StageOutcome.exn "embed model missing",
   fun _ s => (StageOutcome.ok (), s)⟩

/-- A rebuild invoked outside the debounce window whose pipeline
succeeds updates last_rebuild_time to the captured start time. -/
lemma rebuild_success_updates (h : HandlerState) (now : Int) (env : PipelineEnv)
    (s : Storage) (hd : h.debounce_time ≤ now - h.last_rebuild_time)
    (hok : (runPipeline env s).1 = StageOutcome.ok ()) :
    rebuildIndex h now env s =
      ({ h with last_rebuild_time := now }, (runPipeline env s).2, true) := by
  unfold rebuildIndex
  rw [if_neg (by omega)]
  cases hr : runPipeline env s with
  | mk o s1 =>
      rw [hr] at hok
      simp at hok
      subst hok
      rfl

/-- A rebuild invoked outside the debounce window whose pipeline raises
is caught by the except handler: the call returns normally and
last_rebuild_time keeps its prior value. -/
lemma rebuild_failure_keeps (h : HandlerState) (now : Int) (env : PipelineEnv)
    (s : Storage) (m : String) (hd : h.debounce_time ≤ now - h.last_rebuild_time)
    (hexn : (runPipeline env s).1 = StageOutcome.exn m) :
    rebuildIndex h now env s = (h, (runPipeline env s).2, true) := by
  unfold rebuildIndex
  rw [if_neg (by omega)]
  cases hr : runPipeline env s with
  | mk o s1 =>
      rw [hr] at hexn
      simp at hexn
      subst hexn
      rfl

/-- Condition under which initial_index_build decides to build. -/
lemma initial_needed_cond (s : Storage) (hor : s.exists_dir = false ∨ s.files = []) :
    (!s.exists_dir || s.files.isEmpty) = true := by
  rcases hor with h | h
  · rw [h]; rfl
  · rw [h]; simp

/-- The watcher entry point when an initial build is needed and the
pipeline succeeds: one pipeline run, then the observer starts. -/
lemma startFileWatcher_initial_ok (env : PipelineEnv) (s : Storage)
    (hcond : (!s.exists_dir || s.files.isEmpty) = true)
    (hok : (runPipeline env s).1 = StageOutcome.ok ()) :
    startFileWatcher env s
      = ([WatcherStep.pipelineRun, WatcherStep.observerStarted],
         Except.ok (runPipeline env s).2) := by
  cases hr : runPipeline env s with
  | mk o s1 =>
      rw [hr] at hok
      simp at hok
      subst hok
      simp [startFileWatcher, initialIndexBuild, hcond, hr]

/-- The watcher entry point when an initial build is needed and the
pipeline raises: one pipeline run, the exception propagates, the
observer never starts. -/
lemma startFileWatcher_initial_exn (env : PipelineEnv) (s : Storage) (m : String)
    (hcond : (!s.exists_dir || s.files.isEmpty) = true)
    (hexn : (runPipeline env s).1 = StageOutcome.exn m) :
    startFileWatcher env s = ([WatcherStep.pipelineRun], Except.error m) := by
  cases hr : runPipeline env s with
  | mk o s1 =>
      rw [hr] at hexn
      simp at hexn
      subst hexn
      simp [startFileWatcher, initialIndexBuild, hcond, hr]

/-! ## Claim C2 -/

/-- Claim C2 (code bug): a deletion event for a regular file of the
watched tree, delivered after the file is gone and well outside the
debounce window, triggers no rebuild at all: should_process_file applies
os.path.isfile to the deleted path, which is False once the file no
longer exists, so on_deleted never reaches rebuild_index and the state
machine never leaves Idle. -/
theorem deleted_file_event_triggers_no_rebuild :
    (100 : Int) - hFx.last_rebuild_time ≥ hFx.debounce_time ∧
    eDelFx.is_directory = false ∧
    eDelFx.kind = EventKind.deleted ∧
    shouldProcessFile fsAfterDelete eDelFx.src_path = false ∧
    onDeleted hFx fsAfterDelete eDelFx 100 envSucc sOlder = (hFx, sOlder, false) := by
  exact ⟨by decide, rfl, rfl, rfl, rfl⟩

/-! ## Claim C3 -/

/-- Claim C3, counterexample: a rebuild whose persist stage raises
mid-way mutates the artifact set at storage_location (a new artifact
file appears next to the old one), so the previously persisted index is
not left untouched and a half-written artifact set is observable by
IndexManager. -/
theorem persist_failure_mutates_storage_cex :
    (runPipeline envPersistFail sOlder).1 = StageOutcome.exn "disk full" ∧
    (rebuildIndex hFx 100 envPersistFail sOlder).2.2 = true ∧
    (rebuildIndex hFx 100 envPersistFail sOlder).2.1 ≠ sOlder := by
  exact ⟨rfl, rfl, by decide⟩

/-- Claim C3 (amended): when the read stage or the embed stage fails,
the pipeline reports the failure and the previously persisted index is
left untouched; when both succeed, the persist stage is invoked directly
on the live contents of storage_location — there is no
temporary-location staging — so the storage after persist is exactly
whatever the external persist call leaves at that location, including on
its failures. -/
theorem pipeline_prefix_failure_leaves_storage :
    (∀ (env : PipelineEnv) (s : Storage) (m : String),
      env.readDocs = StageOutcome.exn m →
      runPipeline env s = (StageOutcome.exn m, s)) ∧
    (∀ (env : PipelineEnv) (s : Storage) (d : Documents) (m : String),
      env.readDocs = StageOutcome.ok d →
      env.buildIndex d = StageOutcome.exn m →
      runPipeline env s = (StageOutcome.exn m, s)) ∧
    (∀ (env : PipelineEnv) (s : Storage) (d : Documents) (i : BuiltIndex),
      env.readDocs = StageOutcome.ok d →
      env.buildIndex d = StageOutcome.ok i →
      runPipeline env s = env.persistDir i s) := by
  refine ⟨?_, ?_, ?_⟩
  · intro env s m h
    unfold runPipeline
    rw [h]
  · intro env s d m h1 h2
    simp [runPipeline, h1, h2]
  · intro env s d i h1 h2
    simp [runPipeline, h1, h2]

/-- Witness for claim C3 at concrete inputs. -/
theorem pipeline_prefix_failure_leaves_storage_witness :
    runPipeline envReadFail sOlder
      = (StageOutcome.exn "embedding backend unreachable", sOlder) ∧
    runPipeline envBuildFail sOlder = (StageOutcome.exn "embed model missing", sOlder) ∧
    runPipeline envSucc sOlder = envSucc.persistDir ⟨1⟩ sOlder :=
  ⟨pipeline_prefix_failure_leaves_storage.1 envReadFail sOlder _ rfl,
   pipeline_prefix_failure_leaves_storage.2.1 envBuildFail sOlder docsFx _ rfl rfl,
   pipeline_prefix_failure_leaves_storage.2.2 envSucc sOlder docsFx ⟨1⟩ rfl rfl⟩

/-! ## Claim C4 -/

/-- Claim C4, counterexample: a rebuild that runs to completion and
fails does not update last_rebuild_time to its start time — the handler
still carries the prior value 0 rather than the start time 100. -/
theorem failed_rebuild_keeps_old_time_cex :
    (100 : Int) - hFx.last_rebuild_time ≥ hFx.debounce_time ∧
    (rebuildIndex hFx 100 envReadFail sOlder).2.2 = true ∧
    (rebuildIndex hFx 100 envReadFail sOlder).1.last_rebuild_time = 0 ∧
    (rebuildIndex hFx 100 envReadFail sOlder).1.last_rebuild_time ≠ 100 := by
  exact ⟨by decide, rfl, rfl, by decide⟩

/-- Claim C4 (amended): a rebuild that runs to completion updates
last_rebuild_time to the time captured at its start exactly when it
succeeds; when it fails, last_rebuild_time keeps its prior value, so the
debounce window measures time since the last successful rebuild
started. -/
theorem rebuild_time_updated_on_success_only :
    (∀ (h : HandlerState) (now : Int) (env : PipelineEnv) (s : Storage),
      h.debounce_time ≤ now - h.last_rebuild_time →
      (runPipeline env s).1 = StageOutcome.ok () →
      rebuildIndex h now env s =
        ({ h with last_rebuild_time := now }, (runPipeline env s).2, true)) ∧
    (∀ (h : HandlerState) (now : Int) (env : PipelineEnv) (s : Storage) (m : String),
      h.debounce_time ≤ now - h.last_rebuild_time →
      (runPipeline env s).1 = StageOutcome.exn m →
      rebuildIndex h now env s = (h, (runPipeline env s).2, true)) :=
  ⟨rebuild_success_updates, rebuild_failure_keeps⟩

/-- Witness for claim C4 at concrete inputs. -/
theorem rebuild_time_updated_on_success_only_witness :
    rebuildIndex hFx 100 envSucc sOlder =
      ({ hFx with last_rebuild_time := 100 }, (runPipeline envSucc sOlder).2, true) ∧
    rebuildIndex hFx 100 envReadFail sOlder
      = (hFx, (runPipeline envReadFail sOlder).2, true) :=
  ⟨rebuild_time_updated_on_success_only.1 hFx 100 envSucc sOlder (by decide) rfl,
   rebuild_time_updated_on_success_only.2 hFx 100 envReadFail sOlder
     "embedding backend unreachable" (by decide) rfl⟩

/-! ## Claim C6 -/

/-- Claim C6, counterexample: two qualifying events one time unit apart
(inside the default debounce window of 2) with a failing rebuild
pipeline yield two pipeline executions, not exactly one — the failed
first rebuild does not advance last_rebuild_time, so the second event is
not dropped. -/
theorem failing_burst_double_rebuild_cex :
    ((11 : Int) - 10 < hFx.debounce_time) ∧
    shouldProcessFile fsFx eModFx.src_path = true ∧
    (processEvents hFx fsFx envReadFail sOlder [(10, eModFx), (11, eModFx)]).2.2 = 2 := by
  exact ⟨by decide, rfl, rfl⟩

/-- Claim C6 (amended): a rebuild trigger arriving while
now - last_rebuild_time < debounce_time is dropped outright — nothing is
queued, nothing changes; and for a burst of qualifying events, all
within one debounce window of the first, with the first event outside
the window of the previous rebuild and a rebuild pipeline that succeeds,
exactly one pipeline execution happens. -/
theorem debounce_burst_single_rebuild :
    (∀ (h : HandlerState) (now : Int) (env : PipelineEnv) (s : Storage),
      now - h.last_rebuild_time < h.debounce_time →
      rebuildIndex h now env s = (h, s, false)) ∧
    (∀ (fs : List String) (env : PipelineEnv) (h : HandlerState) (t1 : Int)
        (e1 : FsEvent) (rest : List (Int × FsEvent)) (s : Storage),
      e1.is_directory = false →
      shouldProcessFile fs e1.src_path = true →
      h.debounce_time ≤ t1 - h.last_rebuild_time →
      (∀ te ∈ rest, te.1 - t1 < h.debounce_time) →
      (∀ s2 : Storage, (runPipeline env s2).1 = StageOutcome.ok ()) →
      (processEvents h fs env s ((t1, e1) :: rest)).2.2 = 1) := by
  constructor
  · exact rebuild_dropped
  · intro fs env h t1 e1 rest s hd hp hfirst hwin hsucc
    have h1 : dispatchEvent h fs e1 t1 env s = rebuildIndex h t1 env s :=
      dispatch_qualifying h fs e1 t1 env s hd hp
    have h2 : rebuildIndex h t1 env s =
        ({ h with last_rebuild_time := t1 }, (runPipeline env s).2, true) :=
      rebuild_success_updates h t1 env s hfirst (hsucc s)
    have h3 : processEvents { h with last_rebuild_time := t1 } fs env
        ((runPipeline env s).2) rest
        = ({ h with last_rebuild_time := t1 }, (runPipeline env s).2, 0) :=
      processEvents_dropped fs env _ _ rest (fun te hte => by
        simpa using hwin te hte)
    simp [processEvents, h1, h2, h3]

/-- Witness for claim C6 at concrete inputs: a dropped trigger inside
the window, and a two-event burst with a succeeding pipeline producing
exactly one rebuild. -/
theorem debounce_burst_single_rebuild_witness :
    rebuildIndex hFx 1 envSucc sOlder = (hFx, sOlder, false) ∧
    (processEvents hFx fsFx envSucc sOlder [(10, eModFx), (11, eModFx)]).2.2 = 1 :=
  ⟨debounce_burst_single_rebuild.1 hFx 1 envSucc sOlder (by decide),
   debounce_burst_single_rebuild.2 fsFx envSucc hFx 10 eModFx [(11, eModFx)] sOlder rfl rfl
     (by decide) (by decide) (fun s2 => rfl)⟩

/-! ## Claim C7 -/

/-- Claim C7, counterexample: the rebuild run at process start is not
contained — with missing storage and a raising read stage, the watcher
entry point propagates the exception (process-fatal) and the observer is
never started. -/
theorem initial_build_failure_propagates_cex :
    (startFileWatcher envReadFail sAbsent).2
      = Except.error "embedding backend unreachable" ∧
    (startFileWatcher envReadFail sAbsent).1 = [WatcherStep.pipelineRun] := by
  exact ⟨rfl, rfl⟩

/-- Claim C7 (amended): failures in the event-driven rebuild path are
contained — rebuild_index returns normally, handler state kept, the
failure only logged; failures in the reload path are contained — the
manager is cleared and the call returns; failures in the query path come
back to the caller as a textual error payload; but the rebuild run at
process start has no handler, so a pipeline failure there propagates out
of the watcher entry point as a process-fatal fault. -/
theorem failure_containment_policy :
    (∀ (h : HandlerState) (now : Int) (env : PipelineEnv) (s : Storage) (m : String),
      h.debounce_time ≤ now - h.last_rebuild_time →
      (runPipeline env s).1 = StageOutcome.exn m →
      rebuildIndex h now env s = (h, (runPipeline env s).2, true)) ∧
    (∀ (st : ManagerState) (s : Storage) (m : String),
      loadIndex st s (LoadResult.failure m) =
        { st with index := none, query_engine := none }) ∧
    (∀ (st : ManagerState) (s : Storage) (r : LoadResult)
        (beh : QueryEngine → String → Except String String) (q : String)
        (e : QueryEngine) (m : String),
      (checkAndReload st s r).query_engine = some e →
      beh e q = Except.error m →
      managerQuery st s r beh q = (checkAndReload st s r, queryErrorMsg m)) ∧
    (∀ (env : PipelineEnv) (s : Storage) (m : String),
      s.exists_dir = false →
      (runPipeline env s).1 = StageOutcome.exn m →
      (startFileWatcher env s).2 = Except.error m) := by
  refine ⟨rebuild_failure_keeps, loadIndex_failure, ?_, ?_⟩
  · intro st s r beh q e m hqe hbeh
    simp only [managerQuery, hqe, hbeh]
  · intro env s m hex hexn
    rw [startFileWatcher_initial_exn env s m (initial_needed_cond s (Or.inl hex)) hexn]

/-- Witness for claim C7 at concrete inputs. -/
theorem failure_containment_policy_witness :
    rebuildIndex hFx 100 envReadFail sOlder
      = (hFx, (runPipeline envReadFail sOlder).2, true) ∧
    loadIndex stPrior sNewer (LoadResult.failure "corrupt docstore")
      = { stPrior with index := none, query_engine := none } ∧
    managerQuery stPrior sOlder (LoadResult.success ⟨2⟩) behRaise "q"
      = (checkAndReload stPrior sOlder (LoadResult.success ⟨2⟩), queryErrorMsg "ollama timeout") ∧
    (startFileWatcher envReadFail sAbsent).2
      = Except.error "embedding backend unreachable" :=
  ⟨failure_containment_policy.1 hFx 100 envReadFail sOlder
     "embedding backend unreachable" (by decide) rfl,
   failure_containment_policy.2.1 stPrior sNewer "corrupt docstore",
   failure_containment_policy.2.2.1 stPrior sOlder (LoadResult.success ⟨2⟩) behRaise "q"
     ⟨⟨1⟩⟩ "ollama timeout" rfl rfl,
   failure_containment_policy.2.2.2 envReadFail sAbsent
     "embedding backend unreachable" rfl rfl⟩

/-! ## Claim C10 -/

/-- Claim C10 (confirmed): at watcher start, when storage_location is
missing or its listing is empty, the rebuild pipeline runs exactly once,
synchronously before the observer starts — on pipeline success the trace
is exactly the pipeline run followed by the observer start, on failure
the observer never starts at all; when storage_location exists and is
non-empty, no initial rebuild runs, the observer starts at once, and the
existing persisted index is used unchanged. -/
theorem initial_build_once_before_observer :
    (∀ (env : PipelineEnv) (s : Storage),
      (s.exists_dir = false ∨ s.files = []) →
      (startFileWatcher env s).1.count WatcherStep.pipelineRun = 1) ∧
    (∀ (env : PipelineEnv) (s : Storage),
      (s.exists_dir = false ∨ s.files = []) →
      (runPipeline env s).1 = StageOutcome.ok () →
      (startFileWatcher env s).1
        = [WatcherStep.pipelineRun, WatcherStep.observerStarted]) ∧
    (∀ (env : PipelineEnv) (s : Storage) (m : String),
      (s.exists_dir = false ∨ s.files = []) →
      (runPipeline env s).1 = StageOutcome.exn m →
      (startFileWatcher env s).1 = [WatcherStep.pipelineRun]) ∧
    (∀ (env : PipelineEnv) (s : Storage),
      s.exists_dir = true → s.files ≠ [] →
      (startFileWatcher env s).1 = [WatcherStep.observerStarted] ∧
      (startFileWatcher env s).2 = Except.ok s) := by
  refine ⟨?_, ?_, ?_, ?_⟩
  · intro env s hor
    have hcond := initial_needed_cond s hor
    cases ho : (runPipeline env s).1 with
    | ok v =>
        cases v
        rw [startFileWatcher_initial_ok env s hcond ho]
        rfl
    | exn m =>
        rw [startFileWatcher_initial_exn env s m hcond ho]
        rfl
  · intro env s hor hok
    rw [startFileWatcher_initial_ok env s (initial_needed_cond s hor) hok]
  · intro env s m hor hexn
    rw [startFileWatcher_initial_exn env s m (initial_needed_cond s hor) hexn]
  · intro env s hex hne
    have hcond : (!s.exists_dir || s.files.isEmpty) = false := by
      cases hf : s.files with
      | nil => exact absurd hf hne
      | cons a l => rw [hex]; rfl
    constructor <;> simp [startFileWatcher, initialIndexBuild, hcond]

/-- Witness for claim C10 at concrete inputs. -/
theorem initial_build_once_before_observer_witness :
    (startFileWatcher envSucc sAbsent).1.count WatcherStep.pipelineRun = 1 ∧
    (startFileWatcher envSucc sAbsent).1
      = [WatcherStep.pipelineRun, WatcherStep.observerStarted] ∧
    (startFileWatcher envReadFail sAbsent).1 = [WatcherStep.pipelineRun] ∧
    ((startFileWatcher envSucc sOlder).1 = [WatcherStep.observerStarted] ∧
      (startFileWatcher envSucc sOlder).2 = Except.ok sOlder) :=
  ⟨initial_build_once_before_observer.1 envSucc sAbsent (Or.inl rfl),
   initial_build_once_before_observer.2.1 envSucc sAbsent (Or.inl rfl) rfl,
   initial_build_once_before_observer.2.2.1 envReadFail sAbsent
     "embedding backend unreachable" (Or.inl rfl) rfl,
   initial_build_once_before_observer.2.2.2 envSucc sOlder rfl (by decide)⟩
